import Mathlib

/-!
A shallow embedding of the core of the `control-plane-lab` orchestrator:
the JSON event envelope (`ai_operator/memory/events.py`), the canonical
event writer (`ai_operator/memory/writer.py`), the trace reader
(`ai_operator/memory/trace.py`), the memory store (`orchestrator/db.py`),
the transactional task queue (`ai_operator/memory/tasks.py`), the tool
registry (`ai_operator/tools/registry.py`) and the worker dispatch loop
(`ai_operator/worker/runner.py`).  Database tables are modelled as Lean
lists of rows, SQL `UPDATE`/`SELECT` statements as pure row transforms
and filters, and Python exceptions as `Except` values.
-/

namespace AiOperator

/-! ### JSON values

`Json` models the Python/JSON values that flow through the event log.
Numbers are restricted to integers: every numeric field the code ever
serializes into an envelope (counters, sizes) is integral.  -/

inductive Json where
  | jnull
  | jbool (b : Bool)
  | jnum (n : Int)
  | jstr (s : String)
  | jarr (xs : List Json)
  | jobj (fields : List (String × Json))

/-- Code-point comparison of character lists, as Python compares `str`. -/
def strLtChars : List Char → List Char → Bool
  | [], [] => false
  | [], _ :: _ => true
  | _ :: _, [] => false
  | a :: as, b :: bs =>
      if a.toNat < b.toNat then true
      else if b.toNat < a.toNat then false
      else strLtChars as bs

def strLe (a b : String) : Bool := !(strLtChars b.data a.data)

/-- JSON string escaping as `json.dumps` with `ensure_ascii=False` performs
it on the strings appearing in this development: the quote and the
backslash are escaped, other characters pass through unchanged. -/
def escapeChar (c : Char) : List Char :=
  if c = '"' then ['\\', '"']
  else if c = '\\' then ['\\', '\\']
  else [c]

def escapeString (s : String) : String :=
  String.mk (s.data.flatMap escapeChar)

def quoteString (s : String) : String :=
  "\"" ++ escapeString s ++ "\""

/-- Insert a rendered field into a list of rendered fields so that keys
stay in ascending code-point order (the effect of `sort_keys=True`). -/
def insertByKey (p : String × String) : List (String × String) → List (String × String)
  | [] => [p]
  | q :: rest => if strLe p.1 q.1 then p :: q :: rest else q :: insertByKey p rest

def sortByKey : List (String × String) → List (String × String)
  | [] => []
  | p :: rest => insertByKey p (sortByKey rest)

def commaJoin : List String → String
  | [] => ""
  | [s] => s
  | s :: t :: rest => s ++ "," ++ commaJoin (t :: rest)

/-! `jsonDumps` is `json.dumps(value, ensure_ascii=False, sort_keys=True,
separators=(",", ":"))` — compact separators, keys sorted at every level.
Object fields are rendered first and then sorted by raw key, which agrees
with sorting the fields and then rendering them. -/

mutual
def jsonDumps : Json → String
  | .jnull => "null"
  | .jbool true => "true"
  | .jbool false => "false"
  | .jnum n => toString n
  | .jstr s => quoteString s
  | .jarr xs => "[" ++ commaJoin (dumpList xs) ++ "]"
  | .jobj fs => "\x7b" ++ commaJoin ((sortByKey (dumpFields fs)).map Prod.snd) ++ "\x7d"

def dumpList : List Json → List String
  | [] => []
  | x :: rest => jsonDumps x :: dumpList rest

def dumpFields : List (String × Json) → List (String × String)
  | [] => []
  | (k, v) :: rest => (k, quoteString k ++ ":" ++ jsonDumps v) :: dumpFields rest
end

/-! ### JSON parsing

A fuel-indexed recursive-descent parser for the JSON forms the event log
produces: objects, arrays, strings (quote/backslash escapes), integers,
`true`, `false`, `null`.  It models both Postgres's `::json` cast and
Python's `json.loads` on such inputs: success returns the parsed value,
failure is `none` (the cast raises / `json.loads` throws). -/

def isWs (c : Char) : Bool :=
  c = ' ' || c = '\t' || c = '\n' || c = '\r'

def skipWs : List Char → List Char
  | [] => []
  | c :: rest => if isWs c then skipWs rest else c :: rest

def parseStringBody : List Char → Option (List Char × List Char)
  | [] => none
  | '"' :: rest => some ([], rest)
  | '\\' :: c :: rest =>
      if c = '"' || c = '\\' then
        match parseStringBody rest with
        | none => none
        | some (acc, rem) => some (c :: acc, rem)
      else none
  | '\\' :: [] => none
  | c :: rest =>
      match parseStringBody rest with
      | none => none
      | some (acc, rem) => some (c :: acc, rem)

def digitsToNat (acc : Nat) : List Char → Nat × List Char
  | [] => (acc, [])
  | c :: rest =>
      if c.isDigit then digitsToNat (acc * 10 + (c.toNat - 48)) rest
      else (acc, c :: rest)

def parseDigits : List Char → Option (Nat × List Char)
  | [] => none
  | c :: rest =>
      if c.isDigit then some (digitsToNat 0 (c :: rest)) else none

mutual
def parseVal : Nat → List Char → Option (Json × List Char)
  | 0, _ => none
  | fuel + 1, cs =>
    match skipWs cs with
    | [] => none
    | 'n' :: 'u' :: 'l' :: 'l' :: rest => some (.jnull, rest)
    | 't' :: 'r' :: 'u' :: 'e' :: rest => some (.jbool true, rest)
    | 'f' :: 'a' :: 'l' :: 's' :: 'e' :: rest => some (.jbool false, rest)
    | '"' :: rest =>
        (match parseStringBody rest with
         | none => none
         | some (acc, rem) => some (.jstr (String.mk acc), rem))
    | '-' :: rest =>
        (match parseDigits rest with
         | none => none
         | some (n, rem) => some (.jnum (-(n : Int)), rem))
    | '[' :: rest =>
        (match skipWs rest with
         | ']' :: rem => some (.jarr [], rem)
         | other => parseElems fuel other [])
    | '\x7b' :: rest =>
        (match skipWs rest with
         | '\x7d' :: rem => some (.jobj [], rem)
         | other => parseFields fuel other [])
    | c :: rest =>
        if c.isDigit then
          match parseDigits (c :: rest) with
          | none => none
          | some (n, rem) => some (.jnum (n : Int), rem)
        else none

def parseElems : Nat → List Char → List Json → Option (Json × List Char)
  | 0, _, _ => none
  | fuel + 1, cs, acc =>
    match parseVal fuel cs with
    | none => none
    | some (v, rem) =>
        match skipWs rem with
        | ',' :: rest => parseElems fuel rest (acc ++ [v])
        | ']' :: rest => some (.jarr (acc ++ [v]), rest)
        | _ => none

def parseFields : Nat → List Char → List (String × Json) → Option (Json × List Char)
  | 0, _, _ => none
  | fuel + 1, cs, acc =>
    match skipWs cs with
    | '"' :: rest =>
        (match parseStringBody rest with
         | none => none
         | some (kacc, rem) =>
           match skipWs rem with
           | ':' :: rest2 =>
               (match parseVal fuel rest2 with
                | none => none
                | some (v, rem2) =>
                  match skipWs rem2 with
                  | ',' :: rest3 => parseFields fuel rest3 (acc ++ [(String.mk kacc, v)])
                  | '\x7d' :: rest3 => some (.jobj (acc ++ [(String.mk kacc, v)]), rest3)
                  | _ => none)
           | _ => none)
    | _ => none
end

/-- Parse a whole string as one JSON value; trailing non-whitespace is an
error, as in `json.loads` and the Postgres `::json` cast. -/
def jsonLoads (s : String) : Option Json :=
  match parseVal (s.data.length + 1) s.data with
  | none => none
  | some (v, rem) =>
      match skipWs rem with
      | [] => some v
      | _ => none

/-- Field lookup inside a JSON object (first occurrence). -/
def lookupField (k : String) : List (String × Json) → Option Json
  | [] => none
  | (k2, v) :: rest => if k2 = k then some v else lookupField k rest

/-- Postgres `json ->> key`: text of the named field, `NULL` when the
value is missing, is JSON `null`, or the receiver is not an object. -/
def jsonGetText (j : Json) (k : String) : Option String :=
  match j with
  | .jobj fs =>
      match lookupField k fs with
      | none => none
      | some .jnull => none
      | some (.jstr s) => some s
      | some v => some (jsonDumps v)
  | _ => none

-- sanity checks for the serializer and parser
example : jsonDumps (.jobj [("b", .jnum 3), ("a", .jstr "x")]) = "\x7b\"a\":\"x\",\"b\":3\x7d" := rfl
example : jsonLoads "\x7b\"a\":\"x\",\"b\":3\x7d" = some (.jobj [("a", .jstr "x"), ("b", .jnum 3)]) := rfl
example : jsonLoads "notjson" = none := rfl
example : jsonLoads "null" = some .jnull := rfl
example : jsonGetText (.jobj [("run_id", .jstr "R1")]) "run_id" = some "R1" := rfl
example : jsonGetText (.jobj [("type", .jstr "response")]) "run_id" = none := rfl

/-! ### Event envelopes — `ai_operator/memory/events.py`

`MemoryEvent` is the frozen dataclass with fields `type`, `source`,
`data`, `ts`.  Note that the dataclass and `make_event` have **no**
`run_id` field or parameter. -/

structure MemoryEvent where
  type : String
  source : String
  data : List (String × Json)
  ts : String

/-- `make_event(type=…, source=…, data=…, ts=…)`: validates that `type`
and `source` are non-empty and stamps `ts or utc_now_iso()` (a supplied
empty string also falls back, as `or` tests truthiness).  `nowIso` stands
for the `utc_now_iso()` call. -/
def make_event (type source : String) (data : List (String × Json))
    (ts : Option String) (nowIso : String) : Except String MemoryEvent :=
  if type = "" then .error "type must be a non-empty string"
  else if source = "" then .error "source must be a non-empty string"
  else .ok ⟨type, source, data,
    match ts with
    | none => nowIso
    | some s => if s = "" then nowIso else s⟩

/-- The envelope dict `json.dumps` serializes in `event_to_content` /
mirrors in `event_to_tool_result`: exactly the four keys `type`,
`source`, `ts`, `data`. -/
def envelopeJson (e : MemoryEvent) : Json :=
  .jobj [("type", .jstr e.type), ("source", .jstr e.source),
         ("ts", .jstr e.ts), ("data", .jobj e.data)]

/-- `event_to_content(e)`: `"EVENT:" + json.dumps({...}, ensure_ascii=False,
sort_keys=True, separators=(",", ":"))`. -/
def event_to_content (e : MemoryEvent) : String :=
  "EVENT:" ++ jsonDumps (envelopeJson e)

/-- `event_to_tool_result(e)`: the structured envelope stored in the
`tool_result` JSONB column. -/
def event_to_tool_result (e : MemoryEvent) : Json :=
  envelopeJson e

/-! ### The memory store — `orchestrator/db.py`

A memory table is a list of rows.  Embedding vectors are lists of
rationals (their values are never computed on; only presence and length
matter to the claims). -/

structure MemoryRow where
  id : Nat
  source : String
  content : String
  embedding : Option (List Rat)
  embedding_model : Option String
  tool : Option String
  tool_result : Option Json
  created_at : Int

/-- `EXPECTED_EMBED_DIM` (env default `1024`, `get_expected_dim` in
`ai_operator/inference/ollama.py`). -/
def EXPECTED_EMBED_DIM : Nat := 1024

/-- `insert_memory(source, content, embedding?, embedding_model?, tool?,
tool_result?)`: allocates an id, stamps `created_at`, and INSERTs one row.
The function body performs **no validation of the embedding's length**:
whatever list is supplied is formatted by `_vector_literal` and inserted.
`memId` and `now` stand for the generated `uuid4` and `now()`. -/
def insert_memory (table : List MemoryRow) (memId : Nat) (now : Int)
    (source content : String) (embedding : Option (List Rat))
    (embedding_model tool : Option String) (tool_result : Option Json) :
    Nat × List MemoryRow :=
  (memId, table ++ [⟨memId, source, content, embedding, embedding_model, tool, tool_result, now⟩])

/-- Case-insensitive character equality by ASCII lower-casing of code
points, for `ILIKE`. -/
def lowerNat (n : Nat) : Nat := if 65 ≤ n ∧ n ≤ 90 then n + 32 else n

def eqCI (a b : Char) : Bool := lowerNat a.toNat = lowerNat b.toNat

def isPrefixCI : List Char → List Char → Bool
  | [], _ => true
  | _ :: _, [] => false
  | p :: ps, c :: cs => eqCI p c && isPrefixCI ps cs

/-- `content ILIKE 'PHRASE:%'`. -/
def contentIlikePhrase (content : String) : Bool :=
  isPrefixCI "PHRASE:".data content.data

/-- The shared tool filter `AND (tool IS NULL OR tool = '')` applied when
`include_tools` is false. -/
def toolFilterOk (include_tools : Bool) (r : MemoryRow) : Bool :=
  include_tools || (match r.tool with | none => true | some s => s = "")

/-- Python `str.strip()` on the ASCII whitespace occurring here. -/
def pyStrip (s : String) : String :=
  String.mk ((skipWs (skipWs s.data.reverse).reverse))

/-- Python `content.split(":", 1)`: text before and after the first
colon, or `none` when no colon occurs. -/
def splitFirstColon : List Char → Option (List Char × List Char)
  | [] => none
  | c :: rest =>
      if c = ':' then some ([], rest)
      else
        match splitFirstColon rest with
        | none => none
        | some (pre, post) => some (c :: pre, post)

/-- `ORDER BY created_at DESC LIMIT 1`: the row with the greatest
`created_at` among the filtered rows. -/
def latestRow : List MemoryRow → Option MemoryRow
  | [] => none
  | r :: rest =>
      match latestRow rest with
      | none => some r
      | some best => if best.created_at < r.created_at then some r else some best

/-- `get_latest_phrase(include_tools)`: the most recent row whose
`content` matches `ILIKE 'PHRASE:%'` (with the tool filter), stripped,
then split at the first colon; rows whose content lacks a colon yield
`None`. -/
def get_latest_phrase (include_tools : Bool) (table : List MemoryRow) : Option String :=
  match latestRow (table.filter fun r => contentIlikePhrase r.content && toolFilterOk include_tools r) with
  | none => none
  | some row =>
      let content := pyStrip row.content
      match splitFirstColon content.data with
      | some (_, post) => some (pyStrip (String.mk post))
      | none => none

/-! ### The canonical event writer — `ai_operator/memory/writer.py` -/

/-- `write_event(event=…, tool=…, embedding=…, embedding_model=…)`: the
single canonical persistence path.  Stores `event_to_content(event)` in
`content`, the envelope in `tool_result`, and `tool or event type` in the
`tool` column, through `insert_memory`. -/
def write_event (table : List MemoryRow) (memId : Nat) (now : Int)
    (event : MemoryEvent) (tool : Option String)
    (embedding : Option (List Rat)) (embedding_model : Option String) :
    Nat × List MemoryRow :=
  insert_memory table memId now event.source (event_to_content event)
    embedding embedding_model
    (some (match tool with
           | none => event.type
           | some t => if t = "" then event.type else t))
    (some (event_to_tool_result event))

/-! ### The trace reader — `ai_operator/memory/trace.py`

`get_trace` is a SQL query followed by a Python post-processing loop.
The SQL stage evaluates `substring(content from 7)::json` on every row
whose `content` matches `LIKE 'EVENT:%'`; when that cast fails the whole
query — and hence `get_trace` — raises. -/

structure SqlTraceRow where
  created_at : Int
  tool : Option String
  event_json : String

structure TraceRow where
  created_at : Int
  tool : Option String
  event : Json

/-- `content LIKE 'EVENT:%'`. -/
def likeEvent (content : String) : Bool :=
  "EVENT:".data.isPrefixOf content.data

/-- `substring(content from 7)`: the suffix after the 6-character
`EVENT:` tag. -/
def substrFrom7 (content : String) : String :=
  String.mk (content.data.drop 6)

/-- Insertion step for `ORDER BY created_at ASC`. -/
def insertByCreatedAt (r : MemoryRow) : List MemoryRow → List MemoryRow
  | [] => [r]
  | s :: rest =>
      if r.created_at ≤ s.created_at then r :: s :: rest
      else s :: insertByCreatedAt r rest

def sortByCreatedAt : List MemoryRow → List MemoryRow
  | [] => []
  | r :: rest => insertByCreatedAt r (sortByCreatedAt rest)

/-- The SQL stage of `get_trace`: filter `content LIKE 'EVENT:%'`, cast
the suffix with `::json` (raising on invalid JSON), keep rows whose
envelope `run_id` text equals the argument, and project
`(created_at, type-as-tool, suffix)`. -/
def sqlTraceScan (runId : String) : List MemoryRow → Except String (List SqlTraceRow)
  | [] => .ok []
  | r :: rest =>
      if likeEvent r.content then
        match jsonLoads (substrFrom7 r.content) with
        | none => .error "invalid input syntax for type json"
        | some j =>
            match sqlTraceScan runId rest with
            | .error e => .error e
            | .ok rows =>
                if jsonGetText j "run_id" = some runId then
                  .ok (⟨r.created_at, jsonGetText j "type", substrFrom7 r.content⟩ :: rows)
                else .ok rows
      else sqlTraceScan runId rest

/-- The Python loop over fetched rows: `raw = r.get("event_json") or
"{}"`, `json.loads` with a fallback to the empty dict on failure. -/
def pyParseEvent (raw : String) : Json :=
  let raw2 := if raw = "" then "\x7b\x7d" else raw
  match jsonLoads raw2 with
  | some ev => ev
  | none => .jobj []

/-- `get_trace(run_id)`: the SQL scan over the table ordered by
`created_at` ascending, then the Python projection to
`(created_at, tool, event)` records. -/
def get_trace (runId : String) (table : List MemoryRow) : Except String (List TraceRow) :=
  match sqlTraceScan runId (sortByCreatedAt table) with
  | .error e => .error e
  | .ok rows => .ok (rows.map fun r => ⟨r.created_at, r.tool, pyParseEvent r.event_json⟩)

-- sanity: an envelope built by make_event round-trips through
-- serialization and the parser
example :
    make_event "remember_phrase" "orchestrator" [("phrase", .jstr "blue_giraffe_42")] none "T0" =
      .ok ⟨"remember_phrase", "orchestrator", [("phrase", .jstr "blue_giraffe_42")], "T0"⟩ := rfl

example :
    jsonLoads (substrFrom7 (event_to_content
        ⟨"remember_phrase", "orchestrator", [("phrase", .jstr "blue_giraffe_42")], "T0"⟩)) =
      some (.jobj [("data", .jobj [("phrase", .jstr "blue_giraffe_42")]),
                   ("source", .jstr "orchestrator"), ("ts", .jstr "T0"),
                   ("type", .jstr "remember_phrase")]) := rfl

/-! ### The task queue — `ai_operator/memory/tasks.py`

A tasks table is a list of rows; timestamps are integers. -/

structure Task where
  id : Nat
  type : String
  payload : Json
  priority : Int
  status : String
  attempts : Nat
  max_attempts : Nat
  available_at : Int
  created_at : Int
  updated_at : Int
  locked_by : Option String
  locked_at : Option Int
  lock_expires_at : Option Int
  result : Option Json
  last_error : Option String
  run_id : Option String

/-- The `claim_task` candidate WHERE clause, verbatim:
`status = 'queued' AND available_at <= now`.  No other status — in
particular not `running` with an expired `lock_expires_at` — is
admitted. -/
def claimEligible (t : Task) (now : Int) : Bool :=
  (t.status == "queued") && (decide (t.available_at ≤ now))

/-- `ORDER BY priority ASC, created_at ASC`: `a` is served strictly
before `b`. -/
def candBefore (a b : Task) : Bool :=
  decide (a.priority < b.priority) ||
    ((a.priority == b.priority) && decide (a.created_at < b.created_at))

/-- `SELECT id FROM tasks WHERE … ORDER BY priority ASC, created_at ASC
LIMIT 1`: the least eligible row under the claim ordering. -/
def selectCandidate (now : Int) : List Task → Option Task
  | [] => none
  | t :: rest =>
      match selectCandidate now rest with
      | none => if claimEligible t now then some t else none
      | some best =>
          if claimEligible t now then
            if candBefore best t then some best else some t
          else some best

/-- The `UPDATE` half of `claim_task`: `status='running'`, lease fields
set, `attempts = attempts + 1`. -/
def claimUpdate (t : Task) (worker_id : String) (lock_s now : Int) : Task :=
  { t with
    status := "running",
    locked_by := some worker_id,
    locked_at := some now,
    lock_expires_at := some (now + lock_s),
    attempts := t.attempts + 1 }

/-- `claim_task(worker_id, lock_s)`: atomically select one candidate and
mark it running; return the updated row (or nothing) and the table. -/
def claim_task (table : List Task) (worker_id : String) (lock_s now : Int) :
    Option Task × List Task :=
  match selectCandidate now table with
  | none => (none, table)
  | some c =>
      let updated := claimUpdate c worker_id lock_s now
      (some updated, table.map fun t => if t.id == c.id then updated else t)

/-- The row transform of `complete_task_success(id, result)`. -/
def successUpdate (t : Task) (result : Json) (now : Int) : Task :=
  { t with
    status := "succeeded",
    result := some result,
    last_error := none,
    locked_by := none,
    locked_at := none,
    lock_expires_at := none,
    updated_at := now }

def complete_task_success (table : List Task) (task_id : Nat) (result : Json) (now : Int) :
    List Task :=
  table.map fun t => if t.id == task_id then successUpdate t result now else t

/-- The row transform of `complete_task_failure(id, error, retry_backoff_s)`:
the two `CASE WHEN attempts >= max_attempts` branches, `last_error`
written, lock fields cleared, `next_time = now + max(0, retry_backoff_s)`. -/
def failureUpdate (t : Task) (error : String) (retry_backoff_s now : Int) : Task :=
  let next_time := now + max 0 retry_backoff_s
  { t with
    status := if t.max_attempts ≤ t.attempts then "failed" else "queued",
    last_error := some error,
    available_at := if t.max_attempts ≤ t.attempts then t.available_at else next_time,
    locked_by := none,
    locked_at := none,
    lock_expires_at := none,
    updated_at := now }

def complete_task_failure (table : List Task) (task_id : Nat) (error : String)
    (retry_backoff_s now : Int) : List Task :=
  table.map fun t => if t.id == task_id then failureUpdate t error retry_backoff_s now else t

/-! ### Single-task lifecycle (claims about one row)

Each queue operation either applies its row transform to the row (the
`UPDATE … WHERE id = …` matched, or `claim_task` selected this row) or
leaves it untouched.  `TaskStep` collects the transforms that can touch
one row; a `claim_task` call can only transform a row satisfying the
candidate WHERE clause. -/

inductive TaskStep : Task → Task → Prop where
  | claim (w : String) (lock_s now : Int) (t : Task)
      (h : claimEligible t now = true) : TaskStep t (claimUpdate t w lock_s now)
  | success (result : Json) (now : Int) (t : Task) :
      TaskStep t (successUpdate t result now)
  | failure (err : String) (backoff now : Int) (t : Task) :
      TaskStep t (failureUpdate t err backoff now)

/-- Reachability of one row under any sequence of queue operations. -/
def TaskReach : Task → Task → Prop := Relation.ReflTransGen TaskStep

/-! ### The tool registry — `ai_operator/tools/registry.py` -/

/-- The Python values that can appear as tool arguments.  `pfloat`
stands for any value of class `float`, `pnone` for `None`, `pother` for
any other object (lists, dicts, …); validation only ever inspects the
class of a value. -/
inductive PyVal where
  | pstr (s : String)
  | pint (n : Int)
  | pbool (b : Bool)
  | pfloat
  | pnone
  | pother

/-- `isinstance(v, str)`.  A Python `bool` is not a `str`. -/
def isinstance_str : PyVal → Bool
  | .pstr _ => true
  | _ => false

/-- `isinstance(v, int)`.  `bool` is a subclass of `int` in Python, so a
boolean satisfies this check. -/
def isinstance_int : PyVal → Bool
  | .pint _ => true
  | .pbool _ => true
  | _ => false

/-- `isinstance(v, (int, float))`; again `bool ⊂ int`. -/
def isinstance_int_or_float : PyVal → Bool
  | .pint _ => true
  | .pbool _ => true
  | .pfloat => true
  | _ => false

/-- `isinstance(v, bool)`. -/
def isinstance_bool : PyVal → Bool
  | .pbool _ => true
  | _ => false

/-- One property descriptor: `props[k].get("type")`. -/
structure PropSpec where
  type : Option String

/-- The minimal schema dict: `schema.get("type")`,
`schema.get("properties") or {}`, `schema.get("required") or []`. -/
structure ToolSchema where
  type : Option String
  properties : List (String × PropSpec)
  required : List String

/-- Error kinds raised by the registry (all are `ValueError` at runtime;
the kinds follow the messages and the error taxonomy of the design). -/
inductive ToolErr where
  | duplicateTool (msg : String)
  | unknownTool (msg : String)
  | invalidArgument (msg : String)

def lookupArg (k : String) : List (String × PyVal) → Option PyVal
  | [] => none
  | (k2, v) :: rest => if k2 = k then some v else lookupArg k rest

def lookupProp (k : String) : List (String × PropSpec) → Option PropSpec
  | [] => none
  | (k2, v) :: rest => if k2 = k then some v else lookupProp k rest

/-- The `for k in required` loop: every required key must be present. -/
def checkRequired (args : List (String × PyVal)) : List String → Except ToolErr Unit
  | [] => .ok ()
  | k :: rest =>
      if (lookupArg k args).isSome then checkRequired args rest
      else .error (.invalidArgument ("Missing required arg: " ++ k))

/-- The per-item body of the `for k, v in args.items()` loop: unexpected
keys are rejected, and a declared scalar type is enforced with
`isinstance`. -/
def checkArgItem (props : List (String × PropSpec)) (k : String) (v : PyVal) :
    Except ToolErr Unit :=
  match lookupProp k props with
  | none => .error (.invalidArgument ("Unexpected arg: " ++ k))
  | some ps =>
      if ps.type == some "string" && !(isinstance_str v) then
        .error (.invalidArgument ("Arg must be string: " ++ k))
      else if ps.type == some "integer" && !(isinstance_int v) then
        .error (.invalidArgument ("Arg must be integer: " ++ k))
      else if ps.type == some "number" && !(isinstance_int_or_float v) then
        .error (.invalidArgument ("Arg must be number: " ++ k))
      else if ps.type == some "boolean" && !(isinstance_bool v) then
        .error (.invalidArgument ("Arg must be boolean: " ++ k))
      else .ok ()

def checkArgs (props : List (String × PropSpec)) : List (String × PyVal) → Except ToolErr Unit
  | [] => .ok ()
  | (k, v) :: rest =>
      match checkArgItem props k v with
      | .error e => .error e
      | .ok () => checkArgs props rest

/-- `validate_args(schema, args)`. -/
def validate_args (schema : ToolSchema) (args : List (String × PyVal)) :
    Except ToolErr Unit :=
  if schema.type ≠ some "object" then
    .error (.invalidArgument "Tool schema must be type=object")
  else
    match checkRequired args schema.required with
    | .error e => .error e
    | .ok () => checkArgs schema.properties args

structure ToolSpec where
  name : String
  description : String
  schema : ToolSchema
  handler : List (String × PyVal) → List (String × PyVal)

structure ToolRegistry where
  tools : List (String × ToolSpec)

def ToolRegistry.get (r : ToolRegistry) (name : String) : Option ToolSpec :=
  match r.tools.find? (fun p => p.1 == name) with
  | none => none
  | some p => some p.2

/-- `register(tool)`: `DuplicateTool` when the name already exists. -/
def ToolRegistry.register (r : ToolRegistry) (tool : ToolSpec) :
    Except ToolErr ToolRegistry :=
  match r.get tool.name with
  | some _ => .error (.duplicateTool ("Tool already registered: " ++ tool.name))
  | none => .ok ⟨r.tools ++ [(tool.name, tool)]⟩

/-- `run(name, args)`: look up (`UnknownTool` if absent), validate, and
invoke the handler. -/
def ToolRegistry.run (r : ToolRegistry) (name : String)
    (args : List (String × PyVal)) : Except ToolErr (List (String × PyVal)) :=
  match r.get name with
  | none => .error (.unknownTool ("Unknown tool: " ++ name))
  | some tool =>
      match validate_args tool.schema args with
      | .error e => .error e
      | .ok () => .ok (tool.handler args)

/-- `_ping_handler(args)`. -/
def ping_handler (args : List (String × PyVal)) : List (String × PyVal) :=
  let message := match lookupArg "message" args with
                 | some v => v
                 | none => .pstr "pong"
  [("ok", .pbool true), ("tool", .pstr "ping"), ("echo", message)]

/-- The schema of the built-in `ping` tool: `{type: object, properties:
{message: {type: string}}, required: []}`. -/
def pingSchema : ToolSchema :=
  ⟨some "object", [("message", ⟨some "string"⟩)], []⟩

/-- `default_registry()`: a fresh registry holding the `ping` tool. -/
def default_registry : ToolRegistry :=
  ⟨[("ping", ⟨"ping", "Connectivity sanity tool: echoes a message.",
      pingSchema, ping_handler⟩)]⟩

/-! ### The worker dispatch loop — `ai_operator/worker/runner.py` -/

/-- `compute_backoff_s(attempts) = min(30, 2 ** max(0, attempts - 1))`. -/
def compute_backoff_s (attempts : Int) : Int :=
  min 30 (2 ^ (max 0 (attempts - 1)).toNat)

/-- Which completion call `run_once` ends with for a claimed task. -/
inductive CompletionCall where
  | success (result : Json)
  | failure (error : String) (retry_backoff_s : Int)

/-- The dispatch and error accounting of `run_once`, for a task already
claimed: the `if task_type == "tool.call"` / `if task_type ==
"patch.apply"` chain, whose fall-through raises `ValueError("unknown task
type: …")`; every exception is caught and routed to
`complete_task_failure` with `compute_backoff_s(max(1, attempts))`.  The
two handler bodies perform I/O (tool invocation, `git apply`); their
outcomes are abstracted as the function arguments `toolCall` and
`patchApply`. -/
def run_once_completion (task : Task)
    (toolCall : Json → Except String Json)
    (patchApply : Json → Except String Json) : CompletionCall :=
  let backoff := compute_backoff_s (max 1 (task.attempts : Int))
  if task.type == "tool.call" then
    match toolCall task.payload with
    | .ok r => .success r
    | .error e => .failure e backoff
  else if task.type == "patch.apply" then
    match patchApply task.payload with
    | .ok r => .success r
    | .error e => .failure e backoff
  else
    .failure ("ValueError: unknown task type: " ++ task.type) backoff

-- sanity checks for the queue and registry models
example : claimEligible ⟨1, "tool.call", .jnull, 10, "queued", 0, 3, 0, 0, 0, none, none, none, none, none, none⟩ 5 = true := rfl
example : claimEligible ⟨1, "tool.call", .jnull, 10, "running", 1, 3, 0, 0, 0, some "w", some 0, some 60, none, none, none⟩ 100 = false := rfl
example : ToolRegistry.run default_registry "ping" [("message", .pstr "hi")] =
    .ok [("ok", .pbool true), ("tool", .pstr "ping"), ("echo", .pstr "hi")] := rfl
example : ToolRegistry.run default_registry "nope" [] =
    .error (.unknownTool "Unknown tool: nope") := rfl
example : ToolRegistry.run default_registry "ping" [("message", .pint 3)] =
    .error (.invalidArgument "Arg must be string: message") := rfl


/-! ## Claims -/

/-! ### C1 — lease expiry never restores a task to the claim pool -/

/-- A task in status running whose lease expired at time 5 (attempts 1 of
3, available immediately), exactly the row a crashed worker leaves
behind. -/
def expiredRunningTask : Task :=
  ⟨1, "tool.call", .jnull, 10, "running", 1, 3, 0, 0, 0,
   some "w1", some 0, some 5, none, none, none⟩

/-- C1: the claim states that a running task whose lock_expires_at has
passed becomes claimable again — either through a broadened claim_task
predicate or through a reaper.  The code has neither: claim_task's WHERE
clause admits only status queued, so for every later time, worker and
lock duration, claim_task over the table holding the expired running row
returns no task and leaves the row untouched. -/
theorem claim_task_never_reclaims_expired_running_lease :
    ∀ (now lock_s : Int) (worker_id : String),
      claim_task [expiredRunningTask] worker_id lock_s now = (none, [expiredRunningTask]) := by
  intro now lock_s worker_id
  rfl

/-! ### C2 — remember then recall does not return the phrase -/

/-- The envelope the remember path persists for the phrase
blue_giraffe_42 (the source make_event has no run_id parameter, although
app.py passes one). -/
def rememberEvent : MemoryEvent :=
  ⟨"remember_phrase", "orchestrator", [("phrase", .jstr "blue_giraffe_42")],
   "2026-01-01T00:00:00+00:00"⟩

/-- The memory table after the remember request persists its event
through the canonical writer. -/
def rememberTable : List MemoryRow :=
  (write_event [] 1 0 rememberEvent none none none).2

/-- C2: the claim states that a recall request after a remember request
returns the remembered phrase verbatim.  It does not: the remember path
stores content EVENT:-prefixed with tool column remember_phrase, while
get_latest_phrase only matches rows whose content begins (case
insensitively) with PHRASE:, so recall finds nothing — with tool rows
excluded or included — and the /ask recall handler answers 404 instead of
the phrase. -/
theorem recall_after_remember_returns_nothing :
    make_event "remember_phrase" "orchestrator" [("phrase", .jstr "blue_giraffe_42")]
      none "2026-01-01T00:00:00+00:00" = .ok rememberEvent ∧
    rememberTable.map MemoryRow.content = ["EVENT:" ++ jsonDumps (envelopeJson rememberEvent)] ∧
    rememberTable.map MemoryRow.tool = [some "remember_phrase"] ∧
    get_latest_phrase false rememberTable = none ∧
    get_latest_phrase true rememberTable = none := by
  exact ⟨rfl, rfl, rfl, rfl, rfl⟩

/-! ### C3 — rows persisted through write_event never match get_trace -/

/-- C3: the claim states that every event persisted through write_event
whose envelope carries run_id R is returned by get_trace R.  The
serialized envelope has exactly the keys data, source, ts, type — no
run_id key at all (make_event cannot even accept one) — so the ->>
run_id extraction yields SQL NULL and get_trace returns the empty trace
for every run identifier, although the event row is present and parses
back as its envelope. -/
theorem write_event_rows_invisible_to_get_trace :
    jsonGetText (envelopeJson rememberEvent) "run_id" = none ∧
    (∀ runId : String, get_trace runId rememberTable = .ok []) := by
  refine ⟨rfl, fun runId => ?_⟩
  rfl

/-! ### C5 — get_trace raises on an invalid EVENT: suffix -/

/-- A memory row whose content carries the EVENT: tag but whose suffix is
not valid JSON. -/
def badEventRow : MemoryRow :=
  ⟨3, "worker", "EVENT:notjson", none, none, none, none, 10⟩

/-- C5: the claim states that get_trace never raises on such a row and
skips it with a null event.  In the code the SQL WHERE clause evaluates
substring(content from 7)::json on every EVENT:-matching row, and the
cast on an invalid suffix aborts the whole query: get_trace raises, for
any run identifier, before the Python parse-failure fallback can run. -/
theorem get_trace_raises_on_invalid_event_json :
    likeEvent badEventRow.content = true ∧
    jsonLoads (substrFrom7 badEventRow.content) = none ∧
    (∀ runId : String,
      get_trace runId [badEventRow] = .error "invalid input syntax for type json") := by
  refine ⟨rfl, rfl, fun runId => ?_⟩
  rfl

/-! ### C8 — insert_memory performs no dimension check -/

/-- A two-component embedding, far from the expected 1024 dimensions. -/
def shortEmbedding : List Rat := [1/10, 2/10]

/-- C8: the claim states that insert_memory rejects a non-null embedding
whose length differs from EXPECTED_EMBED_DIM with InvalidArgument and
writes no row.  The function body contains no dimension check at all: it
formats whatever vector it is given and inserts the row, so a
2-dimensional embedding is stored and the every-stored-row invariant
fails. -/
theorem insert_memory_skips_dimension_check :
    shortEmbedding.length ≠ EXPECTED_EMBED_DIM ∧
    (insert_memory [] 7 0 "orchestrator" "x" (some shortEmbedding) none none none).2 =
      [⟨7, "orchestrator", "x", some shortEmbedding, none, none, none, 0⟩] := by
  exact ⟨by decide, rfl⟩

/-! ### C4 — repo.change and doc.build are not dispatched -/

/-- A claimed repo.change task carrying a patch payload. -/
def repoChangeTask : Task :=
  ⟨2, "repo.change", .jobj [("name", .jstr "fix"), ("patch", .jstr "diff --git a b")],
   10, "running", 1, 3, 0, 0, 0, some "w1", some 0, some 60, none, none, none⟩

/-- A claimed doc.build task carrying a markdown payload. -/
def docBuildTask : Task :=
  ⟨4, "doc.build", .jobj [("name", .jstr "guide"), ("markdown", .jstr "# Title")],
   10, "running", 1, 3, 0, 0, 0, some "w1", some 0, some 60, none, none, none⟩

/-- C4: the claim states that run_once routes repo.change and doc.build
tasks to handlers that write the patch / markdown to an artifact path and
complete the task successfully, with only types outside the closed set
failing as UnknownTaskType.  The dispatch chain in run_once handles only
tool.call and patch.apply; both repo.change and doc.build fall through to
the ValueError("unknown task type") raise and end in
complete_task_failure — whatever the two wired handlers would do — even
though artifacts.py defines run_repo_change_task and run_doc_build_task,
which runner.py never imports. -/
theorem run_once_fails_repo_change_and_doc_build :
    ∀ toolCall patchApply : Json → Except String Json,
      run_once_completion repoChangeTask toolCall patchApply =
        .failure "ValueError: unknown task type: repo.change" 1 ∧
      run_once_completion docBuildTask toolCall patchApply =
        .failure "ValueError: unknown task type: doc.build" 1 := by
  intro toolCall patchApply
  exact ⟨rfl, rfl⟩

/-! ### C6 — complete_task_failure semantics -/

/-- C6: complete_task_failure applied to the existing task transforms
exactly that row; when attempts have reached max_attempts the status
becomes failed with available_at unchanged, otherwise the status becomes
queued with available_at bumped to now plus the (non-negative) backoff;
in both branches last_error is written, the three lock fields are
cleared, and payload, priority, result and max_attempts are untouched. -/
theorem complete_task_failure_semantics (t : Task) (error : String)
    (retry_backoff_s now : Int) (h : 0 ≤ retry_backoff_s) :
    complete_task_failure [t] t.id error retry_backoff_s now =
      [failureUpdate t error retry_backoff_s now] ∧
    (t.max_attempts ≤ t.attempts →
      (failureUpdate t error retry_backoff_s now).status = "failed" ∧
      (failureUpdate t error retry_backoff_s now).available_at = t.available_at) ∧
    (t.attempts < t.max_attempts →
      (failureUpdate t error retry_backoff_s now).status = "queued" ∧
      (failureUpdate t error retry_backoff_s now).available_at = now + retry_backoff_s) ∧
    (failureUpdate t error retry_backoff_s now).last_error = some error ∧
    (failureUpdate t error retry_backoff_s now).locked_by = none ∧
    (failureUpdate t error retry_backoff_s now).locked_at = none ∧
    (failureUpdate t error retry_backoff_s now).lock_expires_at = none ∧
    (failureUpdate t error retry_backoff_s now).payload = t.payload ∧
    (failureUpdate t error retry_backoff_s now).priority = t.priority ∧
    (failureUpdate t error retry_backoff_s now).result = t.result ∧
    (failureUpdate t error retry_backoff_s now).max_attempts = t.max_attempts := by
  refine ⟨by simp [complete_task_failure], ?_, ?_, rfl, rfl, rfl, rfl, rfl, rfl, rfl, rfl⟩
  · intro hmax
    simp [failureUpdate, if_pos hmax]
  · intro hlt
    have hmax : ¬ t.max_attempts ≤ t.attempts := by omega
    simp [failureUpdate, if_neg hmax, max_eq_right h]

/-- Witness for C6 at a concrete task (attempts 1 of 3, backoff 2,
now 100): requeued with available_at 102 and last_error written. -/
theorem complete_task_failure_semantics_witness :
    (0 : Int) ≤ 2 ∧
    ((failureUpdate
        ⟨9, "tool.call", .jnull, 10, "running", 1, 3, 0, 0, 0,
         some "w1", some 0, some 60, none, none, none⟩ "boom" 2 100).status = "queued" ∧
      (failureUpdate
        ⟨9, "tool.call", .jnull, 10, "running", 1, 3, 0, 0, 0,
         some "w1", some 0, some 60, none, none, none⟩ "boom" 2 100).available_at = 100 + 2) :=
  ⟨by decide,
   (complete_task_failure_semantics
      ⟨9, "tool.call", .jnull, 10, "running", 1, 3, 0, 0, 0,
       some "w1", some 0, some 60, none, none, none⟩ "boom" 2 100 (by decide)).2.2.1
     (by decide)⟩

/-! ### C10 — a Python bool passes integer and number validation -/

/-- C10: for a schema declaring a property of type integer or number,
validate_args accepts a boolean value for that property, because
isinstance(True, int) holds (bool is a subclass of int); the same check
is what ToolRegistry.run invokes before the handler. -/
theorem validate_args_accepts_bool_for_integer_and_number (k ty : String) (b : Bool)
    (hty : ty = "integer" ∨ ty = "number") :
    validate_args ⟨some "object", [(k, ⟨some ty⟩)], [k]⟩ [(k, .pbool b)] = .ok () := by
  rcases hty with rfl | rfl <;>
    simp [validate_args, checkRequired, checkArgs, checkArgItem, lookupArg, lookupProp,
      isinstance_int, isinstance_int_or_float]

/-- Witness for C10: the boolean true passes a required integer
property. -/
theorem validate_args_accepts_bool_witness :
    validate_args ⟨some "object", [("n", ⟨some "integer"⟩)], ["n"]⟩ [("n", .pbool true)] = .ok () :=
  validate_args_accepts_bool_for_integer_and_number "n" "integer" true (Or.inl rfl)

/-! ### C9 — when does ToolRegistry.run succeed? -/

/-- The declared-scalar-type test usd by the validation loop, as one
boolean: a declared string/integer/number/boolean type must match the
value via isinstance; any other (or missing) declared type constrains
nothing. -/
def scalarTypeOk (ty : Option String) (v : PyVal) : Bool :=
  if ty == some "string" then isinstance_str v
  else if ty == some "integer" then isinstance_int v
  else if ty == some "number" then isinstance_int_or_float v
  else if ty == some "boolean" then isinstance_bool v
  else true

/-- One item of the args loop succeeds exactly when its key is declared
and its value matches any declared scalar type. -/
theorem checkArgItem_ok_iff (props : List (String × PropSpec)) (k : String) (v : PyVal) :
    checkArgItem props k v = .ok () ↔
      (match lookupProp k props with
       | none => false
       | some ps => scalarTypeOk ps.type v) = true := by
  cases h : lookupProp k props with
  | none => simp [checkArgItem, h]
  | some ps =>
      simp only [checkArgItem, h, scalarTypeOk]
      cases hs : (ps.type == some "string") <;>
        cases hi : (ps.type == some "integer") <;>
          cases hn : (ps.type == some "number") <;>
            cases hb : (ps.type == some "boolean") <;>
              cases hvs : isinstance_str v <;>
                cases hvi : isinstance_int v <;>
                  cases hvn : isinstance_int_or_float v <;>
                    cases hvb : isinstance_bool v <;>
                      simp_all

/-- The args loop succeeds exactly when every item passes. -/
theorem checkArgs_ok_iff (props : List (String × PropSpec)) (args : List (String × PyVal)) :
    checkArgs props args = .ok () ↔
      (args.all fun p =>
        match lookupProp p.1 props with
        | none => false
        | some ps => scalarTypeOk ps.type p.2) = true := by
  induction args with
  | nil => simp [checkArgs]
  | cons hd tl ih =>
      obtain ⟨k, v⟩ := hd
      cases h : checkArgItem props k v with
      | error e =>
          have : ¬ ((match lookupProp k props with
                     | none => false
                     | some ps => scalarTypeOk ps.type v) = true) := by
            rw [← checkArgItem_ok_iff]
            simp [h]
          simp [checkArgs, h, this]
      | ok u =>
          cases u
          have : (match lookupProp k props with
                  | none => false
                  | some ps => scalarTypeOk ps.type v) = true :=
            (checkArgItem_ok_iff props k v).mp h
          simp [checkArgs, h, this, ih]

/-- The required-keys loop succeeds exactly when every required key is
present. -/
theorem checkRequired_ok_iff (args : List (String × PyVal)) (req : List String) :
    checkRequired args req = .ok () ↔
      (req.all fun k => (lookupArg k args).isSome) = true := by
  induction req with
  | nil => simp [checkRequired]
  | cons k rest ih =>
      cases h : (lookupArg k args).isSome with
      | false => simp [checkRequired, h]
      | true => simp [checkRequired, h, ih]

/-- Every failure of the required-keys loop is an InvalidArgument. -/
theorem checkRequired_err (args : List (String × PyVal)) (req : List String) :
    checkRequired args req = .ok () ∨
      ∃ m, checkRequired args req = .error (.invalidArgument m) := by
  induction req with
  | nil => exact .inl rfl
  | cons k rest ih =>
      cases h : (lookupArg k args).isSome with
      | false => exact .inr ⟨"Missing required arg: " ++ k, by simp [checkRequired, h]⟩
      | true => simpa [checkRequired, h] using ih

/-- Every failure of one args-loop item is an InvalidArgument. -/
theorem checkArgItem_err (props : List (String × PropSpec)) (k : String) (v : PyVal) :
    checkArgItem props k v = .ok () ∨
      ∃ m, checkArgItem props k v = .error (.invalidArgument m) := by
  unfold checkArgItem
  cases lookupProp k props with
  | none => exact .inr ⟨_, rfl⟩
  | some ps =>
      repeat' split
      all_goals first
        | exact .inl rfl
        | exact .inr ⟨_, rfl⟩

/-- Every failure of the args loop is an InvalidArgument. -/
theorem checkArgs_err (props : List (String × PropSpec)) (args : List (String × PyVal)) :
    checkArgs props args = .ok () ∨
      ∃ m, checkArgs props args = .error (.invalidArgument m) := by
  induction args with
  | nil => exact .inl rfl
  | cons hd tl ih =>
      obtain ⟨k, v⟩ := hd
      cases h : checkArgItem props k v with
      | error e =>
          rcases checkArgItem_err props k v with hok | ⟨m, hm⟩
          · rw [h] at hok
            exact absurd hok (by simp)
          · rw [h] at hm
            exact .inr ⟨m, by simp [checkArgs, h, ← hm]⟩
      | ok u =>
          cases u
          simpa [checkArgs, h] using ih

/-- What validate_args (and hence run) actually requires of the
arguments: an object schema, every required key present, and every
supplied key declared with a matching scalar type when one is
declared. -/
def validArgsOk (schema : ToolSchema) (args : List (String × PyVal)) : Bool :=
  (schema.type == some "object") &&
  (schema.required.all fun k => (lookupArg k args).isSome) &&
  (args.all fun p =>
    match lookupProp p.1 schema.properties with
    | none => false
    | some ps => scalarTypeOk ps.type p.2)

/-- validate_args succeeds exactly on validArgsOk. -/
theorem validate_args_ok_iff (schema : ToolSchema) (args : List (String × PyVal)) :
    validate_args schema args = .ok () ↔ validArgsOk schema args = true := by
  by_cases ht : schema.type = some "object"
  · have hne : ¬ schema.type ≠ some "object" := by simp [ht]
    cases hr : checkRequired args schema.required with
    | error e =>
        have : ¬ ((schema.required.all fun k => (lookupArg k args).isSome) = true) := by
          rw [← checkRequired_ok_iff]
          simp [hr]
        simp [validate_args, validArgsOk, hne, hr, ht, this]
    | ok u =>
        cases u
        have hall : (schema.required.all fun k => (lookupArg k args).isSome) = true :=
          (checkRequired_ok_iff args schema.required).mp hr
        simp only [validate_args, validArgsOk, if_neg hne, hr, ht, hall]
        simpa using checkArgs_ok_iff schema.properties args
  · have hne : schema.type ≠ some "object" := ht
    have : (schema.type == some "object") = false := by
      simp [ht]
    simp [validate_args, validArgsOk, hne, this]

/-- Every failure of validate_args is an InvalidArgument. -/
theorem validate_args_err (schema : ToolSchema) (args : List (String × PyVal)) :
    validate_args schema args = .ok () ∨
      ∃ m, validate_args schema args = .error (.invalidArgument m) := by
  unfold validate_args
  by_cases ht : schema.type ≠ some "object"
  · rw [if_pos ht]
    exact .inr ⟨_, rfl⟩
  · rw [if_neg ht]
    cases hr : checkRequired args schema.required with
    | error e =>
        rcases checkRequired_err args schema.required with hok | ⟨m, hm⟩
        · rw [hr] at hok
          exact absurd hok (by simp)
        · rw [hr] at hm
          exact .inr ⟨m, by simp [← hm]⟩
    | ok u =>
        cases u
        exact checkArgs_err schema.properties args

/-- The success condition exactly as C9 words it — with no clause about
keys that appear in args but not in the schema properties: every
required key present, and every supplied field whose schema property
declares a scalar type matching it. -/
def claimNineOk (schema : ToolSchema) (args : List (String × PyVal)) : Bool :=
  (schema.required.all fun k => (lookupArg k args).isSome) &&
  (args.all fun p =>
    match lookupProp p.1 schema.properties with
    | none => true
    | some ps => scalarTypeOk ps.type p.2)

/-- C9 counterexample: for the built-in ping tool and the arguments
(message="hi", extra=1), every required key is present (there are none)
and every supplied field with a declared scalar type matches (message is
a string; extra has no declared property), so the claim as stated
demands success — but run rejects the undeclared key extra with
InvalidArgument. -/
theorem run_rejects_undeclared_key_counterexample :
    Option.map ToolSpec.schema (default_registry.get "ping") = some pingSchema ∧
    claimNineOk pingSchema [("message", .pstr "hi"), ("extra", .pint 1)] = true ∧
    ToolRegistry.run default_registry "ping" [("message", .pstr "hi"), ("extra", .pint 1)] =
      .error (.invalidArgument "Unexpected arg: extra") := by
  exact ⟨rfl, rfl, rfl⟩

/-- C9 (amended): run(name, args) returns the handler result exactly
when the tool is registered and validArgsOk holds — required keys
present, no undeclared keys, declared scalar types matched, object
schema; an unregistered name fails with UnknownTool, and a validation
failure is always an InvalidArgument. -/
theorem run_success_characterization (r : ToolRegistry) (name : String)
    (args : List (String × PyVal)) :
    (r.get name = none →
      ToolRegistry.run r name args = .error (.unknownTool ("Unknown tool: " ++ name))) ∧
    (∀ tool, r.get name = some tool →
      ((ToolRegistry.run r name args = .ok (tool.handler args)) ↔
        validArgsOk tool.schema args = true) ∧
      (validArgsOk tool.schema args = false →
        ∃ m, ToolRegistry.run r name args = .error (.invalidArgument m))) := by
  constructor
  · intro h
    simp [ToolRegistry.run, h]
  · intro tool h
    constructor
    · constructor
      · intro hrun
        cases hv : validate_args tool.schema args with
        | error e => simp [ToolRegistry.run, h, hv] at hrun
        | ok u =>
            cases u
            exact (validate_args_ok_iff tool.schema args).mp hv
      · intro hok
        have hv : validate_args tool.schema args = .ok () :=
          (validate_args_ok_iff tool.schema args).mpr hok
        simp [ToolRegistry.run, h, hv]
    · intro hbad
      rcases validate_args_err tool.schema args with hok | ⟨m, hm⟩
      · rw [validate_args_ok_iff tool.schema args] at hok
        rw [hok] at hbad
        exact absurd hbad (by simp)
      · exact ⟨m, by simp [ToolRegistry.run, h, hm]⟩

/-- Witness for the amended C9 at the ping tool: a valid call returns
the handler result. -/
theorem run_success_characterization_witness :
    ToolRegistry.run default_registry "ping" [("message", .pstr "hi")] =
      .ok (ping_handler [("message", .pstr "hi")]) :=
  ((run_success_characterization default_registry "ping" [("message", .pstr "hi")]).2
      ⟨"ping", "Connectivity sanity tool: echoes a message.", pingSchema, ping_handler⟩
      rfl).1.mpr rfl

/-! ### C7 — lifecycle invariant of one task row -/

/-- The inductive invariant of one task row: attempts never exceed
max_attempts, a queued row has room for another attempt, and a failed
row has exhausted its attempts. -/
def TaskInv (t : Task) : Prop :=
  t.attempts ≤ t.max_attempts ∧
  (t.status = "queued" → t.attempts < t.max_attempts) ∧
  (t.status = "failed" → t.max_attempts ≤ t.attempts)

/-- A claim-eligible row is queued. -/
theorem claimEligible_status {t : Task} {now : Int}
    (h : claimEligible t now = true) : t.status = "queued" := by
  have h' := h
  simp only [claimEligible, Bool.and_eq_true, beq_iff_eq] at h'
  exact h'.1

theorem taskStep_preserves_inv {t u : Task} (h : TaskStep t u) (hi : TaskInv t) :
    TaskInv u := by
  obtain ⟨h1, h2, h3⟩ := hi
  cases h with
  | claim w lock_s now t helig =>
      have hlt := h2 (claimEligible_status helig)
      refine ⟨?_, ?_, ?_⟩
      · show t.attempts + 1 ≤ t.max_attempts
        omega
      · intro hc
        have hc' : ("running" : String) = "queued" := hc
        exact absurd hc' (by decide)
      · intro hc
        have hc' : ("running" : String) = "failed" := hc
        exact absurd hc' (by decide)
  | success result now t =>
      refine ⟨h1, ?_, ?_⟩
      · intro hc
        have hc' : ("succeeded" : String) = "queued" := hc
        exact absurd hc' (by decide)
      · intro hc
        have hc' : ("succeeded" : String) = "failed" := hc
        exact absurd hc' (by decide)
  | failure err backoff now t =>
      by_cases hm : t.max_attempts ≤ t.attempts
      · refine ⟨h1, ?_, ?_⟩
        · intro hc
          rw [show (failureUpdate t err backoff now).status =
                (if t.max_attempts ≤ t.attempts then "failed" else "queued") from rfl,
              if_pos hm] at hc
          exact absurd hc (by decide)
        · intro _
          exact hm
      · refine ⟨h1, ?_, ?_⟩
        · intro _
          show t.attempts < t.max_attempts
          omega
        · intro hc
          rw [show (failureUpdate t err backoff now).status =
                (if t.max_attempts ≤ t.attempts then "failed" else "queued") from rfl,
              if_neg hm] at hc
          exact absurd hc (by decide)

/-- After a terminal failure: attempts exhausted and the status is one
of the two terminal strings. -/
def TaskDead (t : Task) : Prop :=
  t.max_attempts ≤ t.attempts ∧ (t.status = "succeeded" ∨ t.status = "failed")

theorem taskStep_preserves_dead {t u : Task} (h : TaskStep t u) (hd : TaskDead t) :
    TaskDead u := by
  obtain ⟨hm, hs⟩ := hd
  cases h with
  | claim w lock_s now t helig =>
      exfalso
      have hq := claimEligible_status helig
      rcases hs with h' | h' <;> rw [hq] at h' <;> exact absurd h' (by decide)
  | success result now t =>
      exact ⟨hm, .inl rfl⟩
  | failure err backoff now t =>
      refine ⟨hm, .inr ?_⟩
      show (if t.max_attempts ≤ t.attempts then "failed" else "queued") = "failed"
      rw [if_pos hm]

theorem taskReach_preserves_inv {t u : Task} (h : TaskReach t u) (hi : TaskInv t) :
    TaskInv u := by
  induction h with
  | refl => exact hi
  | tail _ hstep ih => exact taskStep_preserves_inv hstep ih

theorem taskReach_preserves_dead {t u : Task} (h : TaskReach t u) (hd : TaskDead t) :
    TaskDead u := by
  induction h with
  | refl => exact hd
  | tail _ hstep ih => exact taskStep_preserves_dead hstep ih

/-- C7: from a freshly created task (attempts 0, status queued, positive
max_attempts — tasks are enqueued with the column default 3), every
state reachable through claim_task, complete_task_success and
complete_task_failure keeps attempts at most max_attempts; and once a
reachable state is failed, every state reachable from it is never queued
again and never satisfies the claim_task candidate clause. -/
theorem task_lifecycle_invariant (t : Task) (h0 : t.attempts = 0)
    (hq : t.status = "queued") (hm : 1 ≤ t.max_attempts) :
    (∀ u, TaskReach t u → u.attempts ≤ u.max_attempts) ∧
    (∀ u v, TaskReach t u → u.status = "failed" → TaskReach u v →
      v.status ≠ "queued" ∧ ∀ now, claimEligible v now = false) := by
  have hinv : TaskInv t := by
    refine ⟨by omega, fun _ => by omega, fun hf => ?_⟩
    rw [hq] at hf
    exact absurd hf (by decide)
  constructor
  · intro u hu
    exact (taskReach_preserves_inv hu hinv).1
  · intro u v hu hf hv
    have hinvu : TaskInv u := taskReach_preserves_inv hu hinv
    have hdv : TaskDead v := taskReach_preserves_dead hv ⟨hinvu.2.2 hf, .inr hf⟩
    constructor
    · rcases hdv.2 with h' | h' <;> rw [h'] <;> decide
    · intro now
      rcases hdv.2 with h' | h' <;>
        · show ((v.status == "queued") && (decide (v.available_at ≤ now))) = false
          rw [h']
          rfl

/-- A freshly enqueued tool.call task with the defaults. -/
def freshTask : Task :=
  ⟨11, "tool.call", .jnull, 10, "queued", 0, 3, 0, 0, 0, none, none, none, none, none, none⟩

/-- Witness for C7 at a concrete fresh task. -/
theorem task_lifecycle_invariant_witness :
    freshTask.attempts ≤ freshTask.max_attempts :=
  (task_lifecycle_invariant freshTask rfl rfl (by decide)).1 freshTask
    Relation.ReflTransGen.refl

end AiOperator
